import Mathlib

/-!
Shallow embedding of `src/main.py`: a FastAPI application with a single
route `GET /` whose handler returns `Response(status_code=204)`, and a
`__main__` guard that starts uvicorn on host `0.0.0.0`, port `8000`.
-/

namespace YiZhong

/-- An HTTP request as seen by the framework: method, path, query string,
headers and body.  The handler in `main.py` inspects none of these. -/
structure HttpRequest where
  method : String
  path : String
  queryString : String
  headers : List (String × String)
  body : String
  deriving DecidableEq, Repr

/-- An HTTP response: status code, the headers set by the handler, and body. -/
structure HttpResponse where
  statusCode : Nat
  headers : List (String × String)
  body : String
  deriving DecidableEq, Repr

/-- `fastapi.status.HTTP_204_NO_CONTENT`. -/
def HTTP_204_NO_CONTENT : Nat := 204

/-- Status code of FastAPI's default not-found response. -/
def HTTP_404_NOT_FOUND : Nat := 404

/-- Status code of FastAPI's default method-not-allowed response. -/
def HTTP_405_METHOD_NOT_ALLOWED : Nat := 405

/-- The handler registered by `@app.get("/")` in `main.py`:
`return Response(status_code=status.HTTP_204_NO_CONTENT)`.
`Response(status_code=...)` with no content and no headers argument carries
an empty body and no handler-set headers. -/
def read_root : HttpResponse :=
  { statusCode := HTTP_204_NO_CONTENT, headers := [], body := "" }

/-- A registered route: HTTP method, path, and the handler invoked on match. -/
structure Route where
  method : String
  path : String
  handler : HttpRequest → HttpResponse

/-- The routing table of `app = FastAPI()` after module load: the decorator
`@app.get("/")` registers exactly one route, `GET /` bound to `read_root`,
and no other module-level statement touches the table. -/
def appRoutes : List Route :=
  [{ method := "GET", path := "/", handler := fun _ => read_root }]

/-- Modelled from the spec: FastAPI's request dispatch, which is framework
code not present in this repository.  A request matching a registered
route's method and path is handed to that route's handler; a request whose
path is registered but whose method is not gets the framework's default
method-not-allowed response (405); anything else gets the framework's
default not-found response (404, JSON detail body). -/
def dispatch (routes : List Route) (req : HttpRequest) : HttpResponse :=
  match routes.find? (fun r => r.method == req.method && r.path == req.path) with
  | some r => r.handler req
  | none =>
    if routes.any (fun r => r.path == req.path) then
      { statusCode := HTTP_405_METHOD_NOT_ALLOWED,
        headers := [("allow", "GET")],
        body := "\x7b\"detail\":\"Method Not Allowed\"\x7d" }
    else
      { statusCode := HTTP_404_NOT_FOUND,
        headers := [],
        body := "\x7b\"detail\":\"Not Found\"\x7d" }

/-- The application's request-response function: dispatch over `appRoutes`. -/
def appHandle (req : HttpRequest) : HttpResponse :=
  dispatch appRoutes req

/-- The stateful view of `read_root` used to express its frame: the Python
function reads no global, writes no global, and has no parameter, so as a
state transformer it returns `read_root` and passes the process state `s`
through unchanged. -/
def read_root_st {σ : Type} (s : σ) : HttpResponse × σ :=
  (read_root, s)

/-- `n` successive invocations of the handler, threading the process state:
collects the responses in order and returns the final state. -/
def repeatCalls {σ : Type} (s : σ) : Nat → List HttpResponse × σ
  | 0 => ([], s)
  | n + 1 =>
    let p := read_root_st s
    let q := repeatCalls p.2 n
    (p.1 :: q.1, q.2)

/-- The body of `read_root` as source statements: a single `return`. -/
inductive Stmt where
  | ret (resp : HttpResponse)
  deriving Repr

/-- The statement list of `read_root`'s body in `main.py`. -/
def read_root_body : List Stmt :=
  [Stmt.ret read_root]

/-- A fuel-bounded executor for handler bodies: each consumed unit of fuel
runs one statement; running out of fuel (or off the end of the body without
returning) yields `none`. -/
def execStmts (fuel : Nat) (stmts : List Stmt) : Option HttpResponse :=
  match fuel, stmts with
  | 0, _ => none
  | _ + 1, [] => none
  | _ + 1, Stmt.ret r :: _ => some r

/-- Host and port for the bootstrap call. -/
structure ServerConfig where
  host : String
  port : Nat
  deriving DecidableEq, Repr

/-- The configuration passed to `uvicorn.run` in the `__main__` block:
`host="0.0.0.0", port=8000`, written as literals in the call. -/
def bootConfig : ServerConfig :=
  { host := "0.0.0.0", port := 8000 }

/-- The `__main__` block as a function of the process environment and
command line: the source reads neither, so the resulting bind configuration
is `bootConfig` regardless of them. -/
def mainServerConfig (env : List (String × String)) (argv : List String) :
    ServerConfig :=
  let _ := env
  let _ := argv
  bootConfig

/-- What loading the module does at top level. -/
inductive BootAction where
  | idle
  | serve (cfg : ServerConfig)
  deriving DecidableEq, Repr

/-- Module load: the guard `if __name__ == "__main__":` runs
`uvicorn.run(app, host="0.0.0.0", port=8000)` only when the module name is
`__main__`; importing under any other name executes no top-level effect. -/
def moduleBoot (moduleName : String) : BootAction :=
  if moduleName == "__main__" then BootAction.serve bootConfig
  else BootAction.idle

/-- A bare `GET /` request: no query string, no headers, empty body. -/
def sampleGetRoot : HttpRequest :=
  { method := "GET", path := "/", queryString := "", headers := [],
    body := "" }

/-- A `GET /` request carrying a query string, a header and a body. -/
def sampleGetRootNoisy : HttpRequest :=
  { method := "GET", path := "/", queryString := "a=1",
    headers := [("x-user", "alice")], body := "payload" }

/-- A `POST /` request. -/
def samplePostRoot : HttpRequest :=
  { method := "POST", path := "/", queryString := "", headers := [],
    body := "" }

/-- Outcome of binding the listening socket. -/
inductive BindOutcome where
  | ok
  | addrInUse
  deriving DecidableEq, Repr

/-- Modelled from the spec: `uvicorn.run` (framework code not in this
repository) raises its native error when the bind fails, e.g. when the
address is already in use; on success it serves. -/
def uvicornRun (cfg : ServerConfig) (bind : BindOutcome) : Except String Unit :=
  let _ := cfg
  match bind with
  | BindOutcome.ok => Except.ok ()
  | BindOutcome.addrInUse => Except.error "address already in use"

/-- The `__main__` block around `uvicorn.run`: the source wraps the call in
no try/except, so a raised error propagates unchanged out of the program. -/
def mainRun (bind : BindOutcome) : Except String Unit :=
  uvicornRun bootConfig bind

/-- Modelled from the spec: the process exit status, zero on clean
termination and non-zero (Python's 1 for an uncaught exception) when the
propagated error terminates the process. -/
def mainProcessExit (bind : BindOutcome) : Nat :=
  match mainRun bind with
  | Except.ok _ => 0
  | Except.error _ => 1

end YiZhong

namespace YiZhong

/-- C1: every request with method GET and path / is answered by `read_root`
with status code 204 and an empty body. -/
theorem c1_get_root_204_empty (req : HttpRequest)
    (hm : req.method = "GET") (hp : req.path = "/") :
    (appHandle req).statusCode = 204 ∧ (appHandle req).body = "" := by
  simp [appHandle, dispatch, appRoutes, List.find?, hm, hp, read_root,
    HTTP_204_NO_CONTENT]

/-- Witness for C1 at a concrete `GET /` request. -/
theorem c1_get_root_204_empty_witness :
    (appHandle sampleGetRoot).statusCode = 204 ∧
    (appHandle sampleGetRoot).body = "" :=
  c1_get_root_204_empty sampleGetRoot rfl rfl

/-- C2: the response to `GET /` is input-invariant: two GET / requests with
arbitrary bodies, headers and query strings receive identical responses. -/
theorem c2_get_root_input_invariant (r1 r2 : HttpRequest)
    (hm1 : r1.method = "GET") (hp1 : r1.path = "/")
    (hm2 : r2.method = "GET") (hp2 : r2.path = "/") :
    appHandle r1 = appHandle r2 := by
  simp [appHandle, dispatch, appRoutes, List.find?, hm1, hp1, hm2, hp2]

/-- Witness for C2 at two concrete `GET /` requests differing in query
string, headers and body. -/
theorem c2_get_root_input_invariant_witness :
    appHandle sampleGetRootNoisy = appHandle sampleGetRoot :=
  c2_get_root_input_invariant sampleGetRootNoisy sampleGetRoot rfl rfl rfl rfl

/-- C3: a request that is not `GET /` never receives 204: with path `/` but
a non-GET method it gets the framework's default 405, and with any other
path it gets the framework's default 404. -/
theorem c3_non_get_root_never_204 (req : HttpRequest)
    (h : ¬(req.method = "GET" ∧ req.path = "/")) :
    (appHandle req).statusCode ≠ 204 ∧
    (appHandle req).statusCode = (if req.path = "/" then 405 else 404) := by
  by_cases hp : req.path = "/"
  · have hm : req.method ≠ "GET" := fun hmeq => h ⟨hmeq, hp⟩
    have hb : (("GET" : String) == req.method) = false :=
      beq_eq_false_iff_ne.mpr (fun hmeq => hm hmeq.symm)
    simp [appHandle, dispatch, appRoutes, List.find?, List.any, hp, hb,
      HTTP_405_METHOD_NOT_ALLOWED]
  · have hb : (("/" : String) == req.path) = false :=
      beq_eq_false_iff_ne.mpr (fun hpeq => hp hpeq.symm)
    simp [appHandle, dispatch, appRoutes, List.find?, List.any, hp, hb,
      HTTP_404_NOT_FOUND]

/-- Witness for C3 at a concrete `POST /` request. -/
theorem c3_non_get_root_never_204_witness :
    (appHandle samplePostRoot).statusCode ≠ 204 ∧
    (appHandle samplePostRoot).statusCode =
      (if samplePostRoot.path = "/" then 405 else 404) :=
  c3_non_get_root_never_204 samplePostRoot (by decide)

/-- C4: the handler is pure with respect to process state: a call leaves
the state unchanged, and any number of repeated calls yields that many
identical 204/empty responses with the state equal to the initial one. -/
theorem c4_handler_state_frame {σ : Type} (s : σ) (n : Nat) :
    read_root_st s = (read_root, s) ∧
    repeatCalls s n = (List.replicate n read_root, s) := by
  refine ⟨rfl, ?_⟩
  induction n with
  | zero => rfl
  | succ k ih =>
    simp [repeatCalls, read_root_st, ih, List.replicate]

/-- C5: the `__main__` bootstrap binds host 0.0.0.0 and port 8000, and no
environment variable or command-line argument changes either value. -/
theorem c5_hardcoded_host_port (env : List (String × String))
    (argv : List String) :
    mainServerConfig env argv = { host := "0.0.0.0", port := 8000 } := by
  rfl

/-- C6: the response to `GET /` carries no handler-set headers: the handler
builds it from the status code alone. -/
theorem c6_no_custom_headers (req : HttpRequest)
    (hm : req.method = "GET") (hp : req.path = "/") :
    (appHandle req).headers = [] ∧ read_root.headers = [] := by
  refine ⟨?_, rfl⟩
  simp [appHandle, dispatch, appRoutes, List.find?, hm, hp, read_root]

/-- Witness for C6 at a concrete `GET /` request. -/
theorem c6_no_custom_headers_witness :
    (appHandle sampleGetRootNoisy).headers = [] ∧
    read_root.headers = [] :=
  c6_no_custom_headers sampleGetRootNoisy rfl rfl

/-- C7: the handler terminates immediately: its body is a single return
statement, so one unit of fuel already makes the bounded executor produce
the 204 response, for every fuel bound at least one. -/
theorem c7_handler_terminates_in_one_step (fuel : Nat) (h : 1 ≤ fuel) :
    execStmts fuel read_root_body = some read_root := by
  cases fuel with
  | zero => exact absurd h (by decide)
  | succ k => rfl

/-- Witness for C7 at the minimal fuel bound. -/
theorem c7_handler_terminates_in_one_step_witness :
    execStmts 1 read_root_body = some read_root :=
  c7_handler_terminates_in_one_step 1 (by decide)

/-- C8: on bind failure the error raised by the framework propagates out of
the `__main__` block unchanged — the source installs no handler and no
retry — and the process exits with a non-zero status. -/
theorem c8_bind_failure_propagates :
    mainRun BindOutcome.addrInUse =
      Except.error "address already in use" ∧
    mainProcessExit BindOutcome.addrInUse = 1 ∧
    mainProcessExit BindOutcome.addrInUse ≠ 0 := by
  refine ⟨rfl, rfl, by decide⟩

/-- C9: the application's routing table holds exactly one route, `GET /`,
and nothing after module load modifies it: `appRoutes` is a constant. -/
theorem c9_single_route_invariant :
    appRoutes.map (fun r => (r.method, r.path)) = [("GET", "/")] ∧
    appRoutes.length = 1 := by
  exact ⟨rfl, rfl⟩

/-- C10: importing the module under any name other than `__main__` starts
no server: `uvicorn.run` sits under the `__main__` guard, so module load is
effect-free for a library import. -/
theorem c10_import_does_not_serve (moduleName : String)
    (h : moduleName ≠ "__main__") :
    moduleBoot moduleName = BootAction.idle := by
  simp [moduleBoot, h]

/-- Witness for C10 at a concrete import name. -/
theorem c10_import_does_not_serve_witness :
    moduleBoot "main" = BootAction.idle :=
  c10_import_does_not_serve "main" (by decide)

end YiZhong
